import Mathlib

/-!
Shallow embedding of the `PrivateRetirementPlanner` Solidity contract found in
`src/frontend/web/src/App.tsx` (the contract body after the React component).

Ciphertext handles (`euint32`) are modelled as an opaque inductive: the
default (zero) handle is uninitialized, `FHE.asEuint32` produces a trivially
encrypted handle, and externally supplied handles are opaque. Mappings are
total functions from addresses with Solidity zero-value defaults. Reverts are
modelled with `Except`; `FHE.checkSignatures` is an external verifier supplied
as an environment. ABI payloads are modelled as typed values: `abi.decode`
succeeds exactly when the payload has the requested type.
-/

namespace RetirePlan

abbrev Address := Nat

/-- Model of the `euint32` ciphertext-handle type of the FHE library. -/
inductive EUint32 where
  | uninit : EUint32
  | trivialEnc : Nat → EUint32
  | handle : Nat → EUint32
deriving DecidableEq, Repr

/-- Model of `euint32.isInitialized()`: the default zero handle is not
initialized, every produced handle is. -/
def EUint32.isInitialized : EUint32 → Bool
  | .uninit => false
  | .trivialEnc _ => true
  | .handle _ => true

/-- Model of `FHE.asEuint32`: trivial encryption of a plaintext value. -/
def asEuint32 (v : Nat) : EUint32 := .trivialEnc v

/-- Struct `EncryptedFinancialData` of the contract. -/
structure EncryptedFinancialData where
  encryptedAssets : EUint32
  encryptedAnnualIncome : EUint32
  encryptedRetirementAge : EUint32
  encryptedLifeExpectancy : EUint32
  encryptedTargetIncome : EUint32
deriving DecidableEq, Repr

/-- Struct `SimulationResult` of the contract. -/
structure SimulationResult where
  encryptedStrategy : EUint32
  encryptedWithdrawal : EUint32
  encryptedSuccessRate : EUint32
  isSimulated : Bool
deriving DecidableEq, Repr

/-- Solidity mapping default for `EncryptedFinancialData`: all zero handles. -/
def defaultFinancialData : EncryptedFinancialData :=
  ⟨.uninit, .uninit, .uninit, .uninit, .uninit⟩

/-- Solidity mapping default for `SimulationResult`. -/
def defaultSimulationResult : SimulationResult :=
  ⟨.uninit, .uninit, .uninit, false⟩

/-- Pointwise store to a Solidity mapping. -/
def setEntry {β : Type} (m : Address → β) (a : Address) (v : β) : Address → β :=
  fun x => if x = a then v else m x

/-- The two per-owner mappings of the contract. -/
structure ContractState where
  userFinancialData : Address → EncryptedFinancialData
  simulationResults : Address → SimulationResult

/-- State right after deployment: both mappings hold Solidity defaults. -/
def initialState : ContractState :=
  { userFinancialData := fun _ => defaultFinancialData
    simulationResults := fun _ => defaultSimulationResult }

/-- Withdrawal-strategy constant `FIXED_PERCENTAGE` of the contract. -/
def FIXED_PERCENTAGE : Nat := 1

/-- Withdrawal-strategy constant `INFLATION_ADJUSTED` of the contract. -/
def INFLATION_ADJUSTED : Nat := 2

/-- Withdrawal-strategy constant `DYNAMIC_SPENDING` of the contract. -/
def DYNAMIC_SPENDING : Nat := 3

/-- Events declared by the contract. `StrategyDecrypted` is declared in the
source as `event StrategyDecrypted(address indexed user)`: it carries the
user address only and has no strategy-value parameter. -/
inductive Event where
  | FinancialDataSubmitted (user : Address)
  | SimulationRequested (user : Address)
  | SimulationCompleted (user : Address)
  | StrategyDecrypted (user : Address)
deriving DecidableEq, Repr

/-- Revert reasons reachable in the contract body. The first three correspond
to the `require` strings of the source; `InvalidProof` is the revert raised by
`FHE.checkSignatures`; the last two are the EVM aborts of a failed
`abi.decode` and of an out-of-bounds array index. -/
inductive ContractError where
  | DataOwnerRequired
  | AlreadySimulated
  | SimulationNotCompleted
  | InvalidProof
  | AbiDecodeError
  | IndexOutOfBounds
deriving DecidableEq, Repr

/-- Typed model of an ABI-encoded byte payload. -/
inductive AbiValue where
  | uint32Array : List Nat → AbiValue
  | uint32Val : Nat → AbiValue
  | rawBytes : List Nat → AbiValue
deriving DecidableEq, Repr

/-- Model of `abi.decode(bytes, (uint32[]))`: succeeds exactly on an encoded
`uint32[]` payload. -/
def abiDecodeUint32Array : AbiValue → Option (List Nat)
  | .uint32Array xs => some xs
  | _ => none

/-- Model of `abi.decode(bytes, (uint32))`. -/
def abiDecodeUint32 : AbiValue → Option Nat
  | .uint32Val x => some x
  | _ => none

/-- External FHE verifier: `FHE.checkSignatures(requestId, payload, proof)`
either passes or reverts; we record its verdict as a boolean oracle. -/
structure FHEEnv where
  checkSignatures : Nat → AbiValue → AbiValue → Bool

/-- Environment whose verifier accepts every proof. -/
def allOkEnv : FHEEnv := ⟨fun _ _ _ => true⟩

/-- Environment whose verifier rejects every proof. -/
def allRejectEnv : FHEEnv := ⟨fun _ _ _ => false⟩

/-- Payload handed to the external dispatcher by a request function, plus the
request identifier the dispatcher returned (the contract discards it). -/
structure DispatchedRequest where
  ciphertexts : List EUint32
  requestId : Nat
deriving DecidableEq, Repr

/-- Function `submitEncryptedData`: stores the five handles wholesale under
`msg.sender`, resets that sender's `SimulationResult` to trivial zeros with
`isSimulated = false`, and emits `FinancialDataSubmitted(msg.sender)`. -/
def submitEncryptedData (s : ContractState) (sender : Address)
    (encryptedAssets encryptedAnnualIncome encryptedRetirementAge
      encryptedLifeExpectancy encryptedTargetIncome : EUint32) :
    ContractState × List Event :=
  ({ userFinancialData :=
      setEntry s.userFinancialData sender
        { encryptedAssets := encryptedAssets
          encryptedAnnualIncome := encryptedAnnualIncome
          encryptedRetirementAge := encryptedRetirementAge
          encryptedLifeExpectancy := encryptedLifeExpectancy
          encryptedTargetIncome := encryptedTargetIncome }
     simulationResults :=
      setEntry s.simulationResults sender
        { encryptedStrategy := asEuint32 0
          encryptedWithdrawal := asEuint32 0
          encryptedSuccessRate := asEuint32 0
          isSimulated := false } },
   [Event.FinancialDataSubmitted sender])

/-- Function `requestRetirementSimulation`: guarded by `onlyDataOwner` (the
sender's `encryptedAssets` handle must be initialized) and by
`require(!isSimulated)`. It packages the five stored handles for the external
dispatcher and emits `SimulationRequested(msg.sender)`. The request id
returned by `FHE.requestComputation` (`freshId` here) is bound to a local
variable in the source and never stored: the contract state is unchanged. -/
def requestRetirementSimulation (s : ContractState) (sender : Address)
    (freshId : Nat) :
    Except ContractError (ContractState × List Event × DispatchedRequest) :=
  if (s.userFinancialData sender).encryptedAssets.isInitialized then
    if (s.simulationResults sender).isSimulated then
      .error .AlreadySimulated
    else
      .ok (s, [Event.SimulationRequested sender],
        { ciphertexts :=
            [(s.userFinancialData sender).encryptedAssets,
             (s.userFinancialData sender).encryptedAnnualIncome,
             (s.userFinancialData sender).encryptedRetirementAge,
             (s.userFinancialData sender).encryptedLifeExpectancy,
             (s.userFinancialData sender).encryptedTargetIncome]
          requestId := freshId })
  else .error .DataOwnerRequired

/-- Callback `runSimulation(requestId, results, proof)`: checks the proof via
`FHE.checkSignatures`, decodes `results` as `uint32[]`, and stores the first
three decoded values (re-encrypted with `FHE.asEuint32`) into
`simulationResults[msg.sender]` with `isSimulated = true`, emitting
`SimulationCompleted(msg.sender)`. The source consults no pending-request
record: `requestId` is used only inside the signature check, and the result is
keyed by the transaction sender. -/
def runSimulation (env : FHEEnv) (s : ContractState) (sender : Address)
    (requestId : Nat) (results proof : AbiValue) :
    Except ContractError (ContractState × List Event) :=
  if env.checkSignatures requestId results proof then
    match abiDecodeUint32Array results with
    | some (r0 :: r1 :: r2 :: _) =>
        .ok ({ s with simulationResults :=
                (setEntry s.simulationResults sender
                  { encryptedStrategy := asEuint32 r0
                    encryptedWithdrawal := asEuint32 r1
                    encryptedSuccessRate := asEuint32 r2
                    isSimulated := true }) },
          [Event.SimulationCompleted sender])
    | some _ => .error .IndexOutOfBounds
    | none => .error .AbiDecodeError
  else .error .InvalidProof

/-- State left by `runSimulation` under EVM revert semantics: on any error the
whole transaction rolls back and the pre-state is kept. -/
def runSimulationState (env : FHEEnv) (s : ContractState) (sender : Address)
    (requestId : Nat) (results proof : AbiValue) : ContractState :=
  match runSimulation env s sender requestId results proof with
  | .ok (s2, _) => s2
  | .error _ => s

/-- Function `requestStrategyDecryption`: guarded by `onlyDataOwner`, then by
`require(isSimulated)`. It packages exactly the sender's `encryptedStrategy`
handle for the external decryption oracle, emits no event, and stores
nothing (the returned request id is again discarded by the source). -/
def requestStrategyDecryption (s : ContractState) (sender : Address)
    (freshId : Nat) :
    Except ContractError (ContractState × List Event × DispatchedRequest) :=
  if (s.userFinancialData sender).encryptedAssets.isInitialized then
    if (s.simulationResults sender).isSimulated then
      .ok (s, [],
        { ciphertexts := [(s.simulationResults sender).encryptedStrategy]
          requestId := freshId })
    else .error .SimulationNotCompleted
  else .error .DataOwnerRequired

/-- Callback `decryptStrategy(requestId, cleartexts, proof)`: checks the
proof, decodes one `uint32` into a local variable that the source never uses,
writes no storage, and emits `StrategyDecrypted(msg.sender)` — an event that
carries the sender address only. -/
def decryptStrategy (env : FHEEnv) (s : ContractState) (sender : Address)
    (requestId : Nat) (cleartexts proof : AbiValue) :
    Except ContractError (ContractState × List Event) :=
  if env.checkSignatures requestId cleartexts proof then
    match abiDecodeUint32 cleartexts with
    | some _ => .ok (s, [Event.StrategyDecrypted sender])
    | none => .error .AbiDecodeError
  else .error .InvalidProof

/-- View `getEncryptedWithdrawal`: `onlyDataOwner`, then returns the stored
`encryptedWithdrawal` handle of the sender. Being a view it touches no state. -/
def getEncryptedWithdrawal (s : ContractState) (sender : Address) :
    Except ContractError EUint32 :=
  if (s.userFinancialData sender).encryptedAssets.isInitialized then
    .ok (s.simulationResults sender).encryptedWithdrawal
  else .error .DataOwnerRequired

/-- View `getEncryptedSuccessRate`: `onlyDataOwner`, then returns the stored
`encryptedSuccessRate` handle of the sender. -/
def getEncryptedSuccessRate (s : ContractState) (sender : Address) :
    Except ContractError EUint32 :=
  if (s.userFinancialData sender).encryptedAssets.isInitialized then
    .ok (s.simulationResults sender).encryptedSuccessRate
  else .error .DataOwnerRequired

/-- Scenario state: owner address 1 has submitted five opaque handles and has
not simulated yet. -/
def ownerSubmittedState : ContractState :=
  (submitEncryptedData initialState 1
    (.handle 21) (.handle 22) (.handle 23) (.handle 24) (.handle 25)).1

/-- Scenario state: after `ownerSubmittedState`, owner 1 itself delivered a
verified simulation callback with results `[2, 100, 95]`. -/
def simulatedOwnerState : ContractState :=
  runSimulationState allOkEnv ownerSubmittedState 1 30
    (.uint32Array [2, 100, 95]) (.rawBytes [])

end RetirePlan

namespace RetirePlan

/-- Claim C5: `submitEncryptedData` replaces the sender's financial record
wholesale with the five supplied handles and resets the sender's
`SimulationResult` to trivially encrypted zeros with `isSimulated = false`;
consequently submitting and immediately resubmitting (from any starting
state, including one where a simulation had completed) leaves `isSimulated`
false. -/
theorem submitEncryptedData_resets_simulation (s : ContractState)
    (sender : Address) (a b c d e a2 b2 c2 d2 e2 : EUint32) :
    (submitEncryptedData s sender a b c d e).1.userFinancialData sender =
      ⟨a, b, c, d, e⟩ ∧
    (submitEncryptedData s sender a b c d e).1.simulationResults sender =
      ⟨asEuint32 0, asEuint32 0, asEuint32 0, false⟩ ∧
    ((submitEncryptedData (submitEncryptedData s sender a b c d e).1 sender
        a2 b2 c2 d2 e2).1.simulationResults sender).isSimulated = false := by
  refine ⟨?_, ?_, ?_⟩ <;> simp [submitEncryptedData, setEntry]

/-- Claim C6: `requestRetirementSimulation` fails with `DataOwnerRequired`
when the caller has no populated record, fails with `AlreadySimulated` when
the caller's result is already marked simulated, and otherwise leaves the
state unchanged, dispatches exactly the caller's five stored handles, and
emits `SimulationRequested` for the caller. -/
theorem requestRetirementSimulation_spec (s : ContractState)
    (sender : Address) (freshId : Nat) :
    ((s.userFinancialData sender).encryptedAssets.isInitialized = false →
      requestRetirementSimulation s sender freshId =
        .error .DataOwnerRequired) ∧
    ((s.userFinancialData sender).encryptedAssets.isInitialized = true →
      (s.simulationResults sender).isSimulated = true →
      requestRetirementSimulation s sender freshId =
        .error .AlreadySimulated) ∧
    ((s.userFinancialData sender).encryptedAssets.isInitialized = true →
      (s.simulationResults sender).isSimulated = false →
      requestRetirementSimulation s sender freshId =
        .ok (s, [Event.SimulationRequested sender],
          ⟨[(s.userFinancialData sender).encryptedAssets,
            (s.userFinancialData sender).encryptedAnnualIncome,
            (s.userFinancialData sender).encryptedRetirementAge,
            (s.userFinancialData sender).encryptedLifeExpectancy,
            (s.userFinancialData sender).encryptedTargetIncome], freshId⟩)) := by
  refine ⟨fun h => ?_, fun h1 h2 => ?_, fun h1 h2 => ?_⟩
  · simp [requestRetirementSimulation, h]
  · simp [requestRetirementSimulation, h1, h2]
  · simp [requestRetirementSimulation, h1, h2]

/-- Witness for claim C6: concrete runs hitting all three branches. -/
theorem requestRetirementSimulation_spec_witness :
    requestRetirementSimulation initialState 0 5 = .error .DataOwnerRequired ∧
    requestRetirementSimulation simulatedOwnerState 1 6 =
      .error .AlreadySimulated ∧
    requestRetirementSimulation ownerSubmittedState 1 7 =
      .ok (ownerSubmittedState, [Event.SimulationRequested 1],
        ⟨[.handle 21, .handle 22, .handle 23, .handle 24, .handle 25], 7⟩) :=
  ⟨(requestRetirementSimulation_spec initialState 0 5).1 rfl,
   (requestRetirementSimulation_spec simulatedOwnerState 1 6).2.1 rfl rfl,
   (requestRetirementSimulation_spec ownerSubmittedState 1 7).2.2 rfl rfl⟩

/-- Claim C10: the encrypted-result reads fail with `DataOwnerRequired`
while the caller has no populated record (in particular before any submit),
and once a record exists they return the stored ciphertext handles with no
condition on `isSimulated`. Both are views: they return values only and
touch no state. -/
theorem getEncryptedResult_spec (s : ContractState) (sender : Address) :
    ((s.userFinancialData sender).encryptedAssets.isInitialized = false →
      getEncryptedWithdrawal s sender = .error .DataOwnerRequired ∧
      getEncryptedSuccessRate s sender = .error .DataOwnerRequired) ∧
    ((s.userFinancialData sender).encryptedAssets.isInitialized = true →
      getEncryptedWithdrawal s sender =
        .ok (s.simulationResults sender).encryptedWithdrawal ∧
      getEncryptedSuccessRate s sender =
        .ok (s.simulationResults sender).encryptedSuccessRate) := by
  refine ⟨fun h => ?_, fun h => ?_⟩ <;>
    exact ⟨by simp [getEncryptedWithdrawal, h],
           by simp [getEncryptedSuccessRate, h]⟩

/-- Witness for claim C10: before any submit both reads revert; after a
submit (with `isSimulated` still false) both return the stored zero handles;
after a completed simulation they return the stored result handles. -/
theorem getEncryptedResult_spec_witness :
    getEncryptedWithdrawal initialState 0 = .error .DataOwnerRequired ∧
    getEncryptedSuccessRate initialState 0 = .error .DataOwnerRequired ∧
    getEncryptedWithdrawal ownerSubmittedState 1 = .ok (asEuint32 0) ∧
    getEncryptedSuccessRate ownerSubmittedState 1 = .ok (asEuint32 0) ∧
    (ownerSubmittedState.simulationResults 1).isSimulated = false ∧
    getEncryptedWithdrawal simulatedOwnerState 1 = .ok (asEuint32 100) ∧
    getEncryptedSuccessRate simulatedOwnerState 1 = .ok (asEuint32 95) :=
  ⟨((getEncryptedResult_spec initialState 0).1 rfl).1,
   ((getEncryptedResult_spec initialState 0).1 rfl).2,
   ((getEncryptedResult_spec ownerSubmittedState 1).2 rfl).1,
   ((getEncryptedResult_spec ownerSubmittedState 1).2 rfl).2,
   rfl,
   ((getEncryptedResult_spec simulatedOwnerState 1).2 rfl).1,
   ((getEncryptedResult_spec simulatedOwnerState 1).2 rfl).2⟩

/-- Counterexample to claim C8 as stated: in the deployment state, caller 0
has `isSimulated = false` (hence not `true`), yet `requestStrategyDecryption`
does not fail with `SimulationNotCompleted`: the `onlyDataOwner` modifier
fires first and the call reverts with `DataOwnerRequired`. -/
theorem requestStrategyDecryption_initial_counterexample :
    (initialState.simulationResults 0).isSimulated = false ∧
    requestStrategyDecryption initialState 0 5 ≠
      .error .SimulationNotCompleted ∧
    requestStrategyDecryption initialState 0 5 = .error .DataOwnerRequired := by
  refine ⟨rfl, ?_, rfl⟩
  intro h
  rw [show requestStrategyDecryption initialState 0 5 =
      Except.error ContractError.DataOwnerRequired from rfl] at h
  injection h with h2
  exact absurd h2 (by decide)

/-- Claim C8 amended: a caller with no populated record gets
`DataOwnerRequired` (the data-owner check precedes the simulation check);
a caller with a record but `isSimulated = false` gets
`SimulationNotCompleted`; with `isSimulated = true` the call packages exactly
the caller's `encryptedStrategy` handle (not withdrawal or success rate) for
external decryption, leaving the state unchanged. -/
theorem requestStrategyDecryption_spec (s : ContractState)
    (sender : Address) (freshId : Nat) :
    ((s.userFinancialData sender).encryptedAssets.isInitialized = false →
      requestStrategyDecryption s sender freshId =
        .error .DataOwnerRequired) ∧
    ((s.userFinancialData sender).encryptedAssets.isInitialized = true →
      (s.simulationResults sender).isSimulated = false →
      requestStrategyDecryption s sender freshId =
        .error .SimulationNotCompleted) ∧
    ((s.userFinancialData sender).encryptedAssets.isInitialized = true →
      (s.simulationResults sender).isSimulated = true →
      requestStrategyDecryption s sender freshId =
        .ok (s, [],
          ⟨[(s.simulationResults sender).encryptedStrategy], freshId⟩)) := by
  refine ⟨fun h => ?_, fun h1 h2 => ?_, fun h1 h2 => ?_⟩
  · simp [requestStrategyDecryption, h]
  · simp [requestStrategyDecryption, h1, h2]
  · simp [requestStrategyDecryption, h1, h2]

/-- Witness for amended claim C8: concrete runs hitting all three branches;
the success branch packages only the single strategy handle. -/
theorem requestStrategyDecryption_spec_witness :
    requestStrategyDecryption initialState 3 11 = .error .DataOwnerRequired ∧
    requestStrategyDecryption ownerSubmittedState 1 12 =
      .error .SimulationNotCompleted ∧
    requestStrategyDecryption simulatedOwnerState 1 13 =
      .ok (simulatedOwnerState, [], ⟨[asEuint32 2], 13⟩) :=
  ⟨(requestStrategyDecryption_spec initialState 3 11).1 rfl,
   (requestStrategyDecryption_spec ownerSubmittedState 1 12).2.1 rfl rfl,
   (requestStrategyDecryption_spec simulatedOwnerState 1 13).2.2 rfl rfl⟩

/-- Claim C3: whenever the external verifier accepts the proof and the
results decode to at least three values, a direct call to `runSimulation`
from any address `a` — over any state, with no requirement that `a` ever
submitted data or requested a simulation — stores the decoded values under
`simulationResults a`, sets its `isSimulated` to true, and emits
`SimulationCompleted a`: the callback is keyed by the transaction sender,
not by any request-to-owner correlation (none is stored in
`ContractState`). -/
theorem runSimulation_routes_by_sender (env : FHEEnv) (s : ContractState)
    (a : Address) (requestId : Nat) (results proofBytes : AbiValue)
    (r0 r1 r2 : Nat) (rest : List Nat)
    (hsig : env.checkSignatures requestId results proofBytes = true)
    (hdec : abiDecodeUint32Array results = some (r0 :: r1 :: r2 :: rest)) :
    runSimulation env s a requestId results proofBytes =
      .ok ({ s with simulationResults :=
              (setEntry s.simulationResults a
                ⟨asEuint32 r0, asEuint32 r1, asEuint32 r2, true⟩) },
        [Event.SimulationCompleted a]) := by
  simp [runSimulation, hsig, hdec]

/-- Witness for claim C3: address 5 never submitted nor requested anything
in `initialState`, yet its own entry is written. -/
theorem runSimulation_routes_by_sender_witness :
    allOkEnv.checkSignatures 42 (.uint32Array [2, 100, 95])
      (.rawBytes []) = true ∧
    abiDecodeUint32Array (.uint32Array [2, 100, 95]) = some [2, 100, 95] ∧
    runSimulation allOkEnv initialState 5 42 (.uint32Array [2, 100, 95])
        (.rawBytes []) =
      .ok ({ initialState with simulationResults :=
              (setEntry initialState.simulationResults 5
                ⟨asEuint32 2, asEuint32 100, asEuint32 95, true⟩) },
        [Event.SimulationCompleted 5]) :=
  ⟨rfl, rfl,
   runSimulation_routes_by_sender allOkEnv initialState 5 42
     (.uint32Array [2, 100, 95]) (.rawBytes []) 2 100 95 [] rfl rfl⟩

/-- Claim C4: when the external verifier rejects the proof, `runSimulation`
reverts with `InvalidProof`; under revert semantics the post-transaction
state is the pre-state, so in particular no address's `isSimulated` flag
changes. -/
theorem runSimulation_invalid_proof_reverts (env : FHEEnv)
    (s : ContractState) (sender : Address) (requestId : Nat)
    (results proofBytes : AbiValue)
    (h : env.checkSignatures requestId results proofBytes = false) :
    runSimulation env s sender requestId results proofBytes =
      .error .InvalidProof ∧
    runSimulationState env s sender requestId results proofBytes = s ∧
    (∀ a : Address,
      ((runSimulationState env s sender requestId results
          proofBytes).simulationResults a).isSimulated =
        ((s.simulationResults a).isSimulated)) := by
  refine ⟨?_, ?_, fun a => ?_⟩ <;>
    simp [runSimulation, runSimulationState, h]

/-- Witness for claim C4: a rejecting verifier on a concrete callback leaves
the concrete state intact. -/
theorem runSimulation_invalid_proof_reverts_witness :
    allRejectEnv.checkSignatures 7 (.uint32Array [2, 100, 95])
      (.rawBytes []) = false ∧
    runSimulation allRejectEnv ownerSubmittedState 1 7
      (.uint32Array [2, 100, 95]) (.rawBytes []) = .error .InvalidProof ∧
    runSimulationState allRejectEnv ownerSubmittedState 1 7
      (.uint32Array [2, 100, 95]) (.rawBytes []) = ownerSubmittedState :=
  ⟨rfl,
   (runSimulation_invalid_proof_reverts allRejectEnv ownerSubmittedState 1 7
     (.uint32Array [2, 100, 95]) (.rawBytes []) rfl).1,
   (runSimulation_invalid_proof_reverts allRejectEnv ownerSubmittedState 1 7
     (.uint32Array [2, 100, 95]) (.rawBytes []) rfl).2.1⟩

end RetirePlan

namespace RetirePlan

/-- Scenario state: nobody ever called `requestRetirementSimulation`, yet a
callback for request id 777 was delivered by address 9 and accepted. -/
def unissuedCallbackState : ContractState :=
  runSimulationState allOkEnv initialState 9 777
    (.uint32Array [3, 60, 90]) (.rawBytes [])

/-- Claim C1 is violated by the code: in the deployment state no request id
was ever issued (`requestRetirementSimulation` was never called and its
returned id is discarded anyway — `ContractState` stores no issued or
consumed ids), yet a callback for id 777 with an accepted proof succeeds,
alters address 9's `SimulationResult`, and an immediate second delivery of
the same id is reprocessed successfully instead of being rejected. -/
theorem runSimulation_accepts_unissued_and_replayed_ids :
    runSimulation allOkEnv initialState 9 777 (.uint32Array [3, 60, 90])
        (.rawBytes []) =
      .ok (unissuedCallbackState, [Event.SimulationCompleted 9]) ∧
    (unissuedCallbackState.simulationResults 9).isSimulated = true ∧
    unissuedCallbackState.simulationResults 9 ≠
      initialState.simulationResults 9 ∧
    runSimulation allOkEnv unissuedCallbackState 9 777
        (.uint32Array [3, 60, 90]) (.rawBytes []) =
      .ok ({ unissuedCallbackState with simulationResults :=
              (setEntry unissuedCallbackState.simulationResults 9
                ⟨asEuint32 3, asEuint32 60, asEuint32 90, true⟩) },
        [Event.SimulationCompleted 9]) := by
  exact ⟨rfl, by decide, by decide, rfl⟩

/-- Scenario state: owner 1 submitted and requested (dispatcher id 7), and
the relayer address 2 delivered the verified callback for id 7. -/
def relayerDeliveredState : ContractState :=
  runSimulationState allOkEnv ownerSubmittedState 2 7
    (.uint32Array [2, 100, 95]) (.rawBytes [])

/-- Claim C2 is violated by the code: owner 1 issues the simulation request
(id 7), but when the callback for id 7 arrives from the relayer address 2,
the decoded values are written into `simulationResults 2` — the callback's
transaction sender — and `SimulationCompleted 2` is emitted, while the
requesting owner 1 stays `isSimulated = false`; no pending request exists in
`ContractState` to be matched or deleted. -/
theorem runSimulation_misroutes_result_to_sender :
    requestRetirementSimulation ownerSubmittedState 1 7 =
      .ok (ownerSubmittedState, [Event.SimulationRequested 1],
        ⟨[.handle 21, .handle 22, .handle 23, .handle 24, .handle 25], 7⟩) ∧
    runSimulation allOkEnv ownerSubmittedState 2 7 (.uint32Array [2, 100, 95])
        (.rawBytes []) =
      .ok (relayerDeliveredState, [Event.SimulationCompleted 2]) ∧
    (relayerDeliveredState.simulationResults 1).isSimulated = false ∧
    relayerDeliveredState.simulationResults 2 =
      ⟨asEuint32 2, asEuint32 100, asEuint32 95, true⟩ := by
  exact ⟨rfl, rfl, by decide, by decide⟩

/-- Scenario state: owner 1's verified callback decoded a strategy id of 7,
outside the declared enumeration. -/
def strategySevenState : ContractState :=
  runSimulationState allOkEnv ownerSubmittedState 1 8
    (.uint32Array [7, 100, 95]) (.rawBytes [])

/-- Claim C7 is violated by the code: 7 is none of `FIXED_PERCENTAGE`,
`INFLATION_ADJUSTED`, `DYNAMIC_SPENDING`, yet a verified callback decoding
strategy 7 is accepted: `runSimulation` performs no range check, stores the
out-of-range strategy, and marks the result simulated. -/
theorem runSimulation_stores_out_of_range_strategy :
    ((7 : Nat) ≠ FIXED_PERCENTAGE ∧ (7 : Nat) ≠ INFLATION_ADJUSTED ∧
      (7 : Nat) ≠ DYNAMIC_SPENDING) ∧
    runSimulation allOkEnv ownerSubmittedState 1 8 (.uint32Array [7, 100, 95])
        (.rawBytes []) =
      .ok (strategySevenState, [Event.SimulationCompleted 1]) ∧
    strategySevenState.simulationResults 1 =
      ⟨asEuint32 7, asEuint32 100, asEuint32 95, true⟩ ∧
    (strategySevenState.simulationResults 1).isSimulated = true := by
  exact ⟨by decide, rfl, by decide, by decide⟩

/-- Claim C9 is violated by the code on its event half and holds on its
frame half: a verified decryption callback decoding cleartext strategy 2
returns the state unchanged (nothing is persisted), but the emitted event is
`Event.StrategyDecrypted 1`, whose constructor — mirroring the Solidity
declaration `event StrategyDecrypted(address indexed user)` — carries only
the sender address: the decoded value 2 appears nowhere in the emission. -/
theorem decryptStrategy_emits_no_strategy_value :
    abiDecodeUint32 (.uint32Val 2) = some 2 ∧
    decryptStrategy allOkEnv simulatedOwnerState 1 40 (.uint32Val 2)
        (.rawBytes []) =
      .ok (simulatedOwnerState, [Event.StrategyDecrypted 1]) := by
  exact ⟨rfl, rfl⟩

end RetirePlan
